import Mathlib

/-!
Shallow embedding of the SkyStack PixInsight driver scripts:
  - the stacking (integration) script (unnamed source file, first document),
  - `pixscripts/calibration_script.js`,
  - `pixscripts/launch_pix_helper.js`.

The scripts are single-threaded JavaScript programs that read JSON
configuration files, invoke the PixInsight engine (`ImageIntegration` /
`ImageCalibration`, a black box here), save results and write sentinel
files.  We embed each script as a pure function from a `Host` environment
(the contents of the filesystem plus the outcomes of the host/engine calls
the script performs) to a trace of observable events together with a final
outcome (normal return, explicit `exit(code)`, or an uncaught thrown
error).
-/

/-- JSON values, as produced by `JSON.parse`.  Numbers in the repository's
configuration files are modelled as integers. -/
inductive Json where
  | null : Json
  | bool : Bool → Json
  | num : Int → Json
  | str : String → Json
  | arr : List Json → Json
  | obj : List (String × Json) → Json

/-- Errors a script run can raise: `scriptError` for `throw new Error(msg)`
in script code, `parseSyntaxError` for a `JSON.parse` failure,
`typeError` for JavaScript TypeErrors, and `hostError` for errors raised
by host/engine API calls (directory creation, file writing, engine
execution, saving). -/
inductive JsError where
  | scriptError : String → JsError
  | parseSyntaxError : JsError
  | typeError : String → JsError
  | hostError : String → JsError

/-- Message text of an error, as read from `error.message` in a catch
block. -/
def JsError.message : JsError → String
  | .scriptError m => m
  | .parseSyntaxError => "Unexpected token in JSON"
  | .typeError m => m
  | .hostError m => m

/-- Per-frame descriptor passed to `ImageIntegration.images`:
(enabled, path, drizzlePath, localNormalizationDataPath). -/
def FrameDesc := Bool × Json × String × String

/-- Observable actions of a script run. -/
inductive Event where
  | consoleWrite : String → Event
  | consoleCritical : String → Event
  | engineIntegration : List FrameDesc → Event
  | engineCalibration : List (Bool × Json) → (masterDark masterFlat outputDir pfx : Option Json) → Event
  | saveRequest : (path : String) → (queryOptions warnings strict overwriteProtection : Bool) → Event
  | createDirectory : String → Event
  | fileWrite : (path : String) → (content : String) → Event

/-- Final outcome of a script run. -/
inductive Outcome where
  | completed : Outcome
  | exited : Nat → Outcome
  | raised : JsError → Outcome

/-- A filesystem's JSON-readable files: each existing file path is mapped
to the result of `JSON.parse` on its text (`none` when the text is not
valid JSON). -/
def FS := List (String × Option Json)

/-- Host environment for one script run: the filesystem (files and
directories) and the behaviour of each fallible host/engine call the
script may perform (`some msg` means the call raises with that message). -/
structure Host where
  files : FS
  dirs : List String
  engineThrows : Option String
  activeWindowIsNull : Bool
  saveThrows : Option String
  mkdirThrows : Option String
  signalWriteThrows : Option String

/-- Embedding of `readJson` (identical in both stage scripts): throws
`new Error("Missing JSON file: " + path)` when the file does not exist,
then returns `JSON.parse` of its text (which throws on malformed
content). -/
def readJson (fs : FS) (path : String) : Except JsError Json :=
  match fs.lookup path with
  | none => .error (.scriptError ("Missing JSON file: " ++ path))
  | some none => .error .parseSyntaxError
  | some (some j) => .ok j

/-- JavaScript truthiness of a JSON value. -/
def jsTruthy : Json → Bool
  | .null => false
  | .bool b => b
  | .num n => n != 0
  | .str s => s != ""
  | .arr _ => true
  | .obj _ => true

/-- The `.length` property of a JSON value: defined for arrays and
strings, `undefined` (`none`) otherwise. -/
def jsLengthProp : Json → Option Nat
  | .arr xs => some xs.length
  | .str s => some s.length
  | _ => none

/-- JavaScript comparison `v < k` where `v` may be `undefined`
(`undefined < k` is `false`). -/
def jsUndefLt (v : Option Nat) (k : Nat) : Bool :=
  match v with
  | none => false
  | some n => n < k

/-- Property lookup `j[key]` on a non-null JSON value: defined keys of
objects, `undefined` (`none`) otherwise. -/
def jsProp (j : Json) (key : String) : Option Json :=
  match j with
  | .obj fields => fields.lookup key
  | _ => none

/-- Indexing `j[0]` used by the calibration script's logging. -/
def jsIndexZero : Json → Option Json
  | .arr xs => xs.head?
  | _ => none

/-- String conversion applied by JavaScript `+` to a JSON value. -/
def jsStr : Json → String
  | .null => "null"
  | .bool true => "true"
  | .bool false => "false"
  | .num n => toString n
  | .str s => s
  | .arr xs => String.intercalate "," (xs.attach.map fun a => jsStr a.1)
  | .obj _ => "[object Object]"
decreasing_by
  have := List.sizeOf_lt_of_mem a.2
  simp_wf
  omega

/-- String conversion of a possibly-`undefined` value. -/
def jsStrOpt : Option Json → String
  | none => "undefined"
  | some j => jsStr j

/-- Embedding of `inputFiles.map(f => [true, f, "", ""])` for the
integration script: on a non-array value `.map` is not a function and a
TypeError is thrown. -/
def jsMapIntegrationFrames : Json → Except JsError (List FrameDesc)
  | .arr xs => .ok (xs.map fun f => (true, f, "", ""))
  | _ => .error (.typeError "inputFiles.map is not a function")

/-- Embedding of `inputFiles.map(f => [true, f])` for the calibration
script. -/
def jsMapCalibrationFrames : Json → Except JsError (List (Bool × Json))
  | .arr xs => .ok (xs.map fun f => (true, f))
  | _ => .error (.typeError "inputFiles.map is not a function")

/-- Characters of the canonical image-file suffix `".fits"`. -/
def fitsSuffix : List Char := ['.', 'f', 'i', 't', 's']

/-- Character-level embedding of `toLowerCase`. -/
def lowerChars (cs : List Char) : List Char := cs.map Char.toLower

/-- Character-level output-path resolution, translated from the
integration script:
`base = outputPath.toLowerCase().endsWith(".fits") ? outputPath.slice(0, -5) : outputPath`
followed by `finalPath = base + ".fits"`.  `slice(0, -5)` drops the last
five characters (clamping at the empty string). -/
def resolveChars (p : List Char) : List Char :=
  if fitsSuffix.isSuffixOf (lowerChars p) then
    p.take (p.length - 5) ++ fitsSuffix
  else
    p ++ fitsSuffix

/-- Embedding of JavaScript `toLowerCase` on strings. -/
def jsToLowerCase (s : String) : String := String.mk (lowerChars s.data)

/-- The Output Resolver: extension normalisation applied to the configured
output path before saving. -/
def resolveOutputPath (p : String) : String := String.mk (resolveChars p.data)

/-- Shared working directory used by every script. -/
def scriptDir : String := "C:/Temp/PixStack"

/-- Path of the input-file list configuration. -/
def inputFilePath : String := "C:/Temp/PixStack/input_files.json"

/-- Path of the parameter-object configuration. -/
def paramFilePath : String := "C:/Temp/PixStack/params.json"

/-- Embedding of the sentinel-writing block shared by the launch helper
and the integration script's completion signalling: ensure the shared
directory exists, then create the file and write the line `done`
(`outTextLn` appends a newline).  Returns the events of the actions that
succeeded, and the error thrown inside the block, if any. -/
def signalFileBlock (host : Host) (fileName : String) : List Event × Option JsError :=
  let filePath := scriptDir ++ "/" ++ fileName
  if host.dirs.contains scriptDir then
    match host.signalWriteThrows with
    | some m => ([], some (.hostError m))
    | none =>
      ([Event.fileWrite filePath "done\n",
        Event.consoleWrite ("Signal file created successfully: " ++ filePath)], none)
  else
    match host.mkdirThrows with
    | some m => ([], some (.hostError m))
    | none =>
      match host.signalWriteThrows with
      | some m => ([Event.createDirectory scriptDir], some (.hostError m))
      | none =>
        ([Event.createDirectory scriptDir,
          Event.fileWrite filePath "done\n",
          Event.consoleWrite ("Signal file created successfully: " ++ filePath)], none)

/-- Embedding of `pixscripts/launch_pix_helper.js`: the whole body is one
try/catch around the sentinel-writing block; any error is caught and
logged, never propagated. -/
def launchPixHelper (host : Host) : List Event × Outcome :=
  match signalFileBlock host "launch_done.tmp" with
  | (evs, some e) =>
    (evs ++ [Event.consoleWrite ("Error creating signal file: " ++ e.message)], .completed)
  | (evs, none) => (evs, .completed)

/-- Embedding of `main` of the stacking (integration) script: load both
configuration files, check the input count, build the frame descriptors,
run `ImageIntegration.executeGlobal`, save the active window to the
resolved output path, then write the completion sentinel inside a
swallowing try/catch. -/
def basicStackMain (host : Host) : List Event × Outcome :=
  let ev0 := [Event.consoleWrite "== Basic Stacking Script for PixInsight CLI =="]
  match readJson host.files inputFilePath with
  | .error e => (ev0, .raised e)
  | .ok inputFiles =>
  match readJson host.files paramFilePath with
  | .error e => (ev0, .raised e)
  | .ok params =>
  if !jsTruthy inputFiles || jsUndefLt (jsLengthProp inputFiles) 2 then
    (ev0 ++ [Event.consoleCritical "Error: Need at least two input files."], .exited 1)
  else
  match params with
  | Json.null =>
    (ev0, .raised (.typeError "Cannot read properties of null (reading 'output_path')"))
  | _ =>
  let outputPathOpt := jsProp params "output_path"
  match jsMapIntegrationFrames inputFiles with
  | .error e => (ev0, .raised e)
  | .ok images =>
  let ev1 := ev0 ++ [Event.consoleWrite ">> Running ImageIntegration...",
                     Event.engineIntegration images]
  match host.engineThrows with
  | some m => (ev1, .raised (.hostError m))
  | none =>
  if host.activeWindowIsNull then
    (ev1, .raised (.scriptError
      "No active image window after ImageIntegration — integration likely failed."))
  else
  match outputPathOpt with
  | none =>
    (ev1, .raised (.typeError "Cannot read properties of undefined (reading 'toLowerCase')"))
  | some (Json.str op) =>
    let finalPath := resolveOutputPath op
    let ev2 := ev1 ++ [Event.consoleWrite ("Saving integrated image to: " ++ finalPath),
                       Event.saveRequest finalPath false false false false]
    match host.saveThrows with
    | some m => (ev2, .raised (.hostError m))
    | none =>
      match signalFileBlock host "basic_stack_complete.tmp" with
      | (sevs, some e) =>
        (ev2 ++ sevs ++ [Event.consoleWrite ("Error creating signal file: " ++ e.message)],
         .completed)
      | (sevs, none) => (ev2 ++ sevs, .completed)
  | some _ =>
    (ev1, .raised (.typeError "outputPath.toLowerCase is not a function"))

/-- Embedding of `main` of `pixscripts/calibration_script.js`: load the
input list, check the input count, load the parameter object, read the
master-frame and output parameters, build the target frames, run
`ImageCalibration.executeGlobal` and log completion.  No completion
sentinel is written and no parameter key is validated. -/
def calibrationMain (host : Host) : List Event × Outcome :=
  let ev0 := [Event.consoleWrite "== Calibration Script for PixInsight CLI =="]
  match readJson host.files inputFilePath with
  | .error e => (ev0, .raised e)
  | .ok inputFiles =>
  if !jsTruthy inputFiles || jsUndefLt (jsLengthProp inputFiles) 1 then
    (ev0 ++ [Event.consoleWrite "Error: No input files found.",
             Event.consoleCritical "Error: Need at least one input file."], .exited 1)
  else
  let ev1 := ev0 ++
    [Event.consoleWrite ("Input files loaded: " ++
       jsStrOpt ((jsLengthProp inputFiles).map fun n => Json.num (Int.ofNat n))),
     Event.consoleWrite ("First input file: " ++ jsStrOpt (jsIndexZero inputFiles))]
  match readJson host.files paramFilePath with
  | .error e => (ev1, .raised e)
  | .ok params =>
  match params with
  | Json.null =>
    (ev1, .raised (.typeError "Cannot read properties of null (reading 'master_flat')"))
  | _ =>
  let masterFlatOpt := jsProp params "master_flat"
  let masterDarkOpt := jsProp params "master_dark"
  let outputDirOpt := jsProp params "output_dir"
  let pfxOpt := jsProp params "prefix"
  match jsMapCalibrationFrames inputFiles with
  | .error e => (ev1, .raised e)
  | .ok frames =>
  let ev2 := ev1 ++
    [Event.consoleWrite (toString frames.length ++ " target frames loaded."),
     Event.consoleWrite ("Master flat: " ++ jsStrOpt masterFlatOpt),
     Event.consoleWrite ("Master dark: " ++ jsStrOpt masterDarkOpt),
     Event.consoleWrite ">> Running ImageCalibration...",
     Event.engineCalibration frames masterDarkOpt masterFlatOpt outputDirOpt pfxOpt]
  match host.engineThrows with
  | some m => (ev2, .raised (.hostError m))
  | none =>
    (ev2 ++ [Event.consoleWrite ">> ImageCalibration completed successfully.",
             Event.consoleWrite ("Integrated images saved to: " ++ jsStrOpt outputDirOpt)],
     .completed)

/-- Number of engine integration invocations in a trace. -/
def integrationCalls (evs : List Event) : Nat :=
  (evs.filter fun e => match e with
    | .engineIntegration _ => true
    | _ => false).length

/-- Number of engine calibration invocations in a trace. -/
def calibrationCalls (evs : List Event) : Nat :=
  (evs.filter fun e => match e with
    | .engineCalibration _ _ _ _ _ => true
    | _ => false).length

/-- Number of save requests in a trace. -/
def saveCalls (evs : List Event) : Nat :=
  (evs.filter fun e => match e with
    | .saveRequest _ _ _ _ _ => true
    | _ => false).length

/-- File writes (path and content) performed in a trace. -/
def fileWrites (evs : List Event) : List (String × String) :=
  evs.filterMap fun e => match e with
    | .fileWrite p c => some (p, c)
    | _ => none

/-! ### Helper lemmas about the Output Resolver -/

theorem lowerChars_append (a b : List Char) :
    lowerChars (a ++ b) = lowerChars a ++ lowerChars b :=
  List.map_append _ a b

theorem lowerChars_fitsSuffix : lowerChars fitsSuffix = fitsSuffix := by decide

theorem lowerChars_length (a : List Char) : (lowerChars a).length = a.length :=
  List.length_map a _

theorem resolveChars_strip (x v : List Char) (hv : lowerChars v = fitsSuffix) :
    resolveChars (x ++ v) = x ++ fitsSuffix := by
  have hv5 : v.length = 5 := by
    have := lowerChars_length v
    rw [hv] at this
    simpa using this.symm
  have hsuf : fitsSuffix.isSuffixOf (lowerChars (x ++ v)) = true := by
    rw [lowerChars_append, hv]
    simp [List.isSuffixOf_iff_suffix]
  have htake : (x ++ v).take ((x ++ v).length - 5) = x := by
    apply List.take_left'
    simp [hv5]
  rw [resolveChars, if_pos hsuf, htake]

theorem resolveChars_append_fits (x : List Char) :
    resolveChars (x ++ fitsSuffix) = x ++ fitsSuffix :=
  resolveChars_strip x fitsSuffix lowerChars_fitsSuffix

theorem resolveChars_shape (p : List Char) :
    ∃ x, resolveChars p = x ++ fitsSuffix := by
  rw [resolveChars]
  by_cases h : fitsSuffix.isSuffixOf (lowerChars p) = true
  · exact ⟨_, by rw [if_pos h]⟩
  · exact ⟨_, by rw [if_neg h]⟩

theorem resolveChars_idem (p : List Char) :
    resolveChars (resolveChars p) = resolveChars p := by
  obtain ⟨x, hx⟩ := resolveChars_shape p
  rw [hx, resolveChars_append_fits]

theorem resolveChars_no_suffix (p : List Char)
    (h : fitsSuffix.isSuffixOf (lowerChars p) = false) :
    resolveChars p = p ++ fitsSuffix := by
  rw [resolveChars, if_neg (by simp [h])]

/-- C5: the Output Resolver is idempotent — resolving an already-resolved
output path yields the same path: `resolve(resolve(p)) = resolve(p)` for
every base path `p`. -/
theorem outputPath_resolve_idempotent (p : String) :
    resolveOutputPath (resolveOutputPath p) = resolveOutputPath p :=
  congrArg String.mk (resolveChars_idem p.data)

/-- C6: the Output Resolver strips a case-insensitive known image-file
suffix exactly once before appending the canonical suffix (whatever the
prefix, including one that itself ends in the suffix), appends the
canonical suffix directly when no known suffix is present, and in
particular maps `/x/img.FITS` to `/x/img.fits` and `/x/img` to
`/x/img.fits`. -/
theorem outputPath_strips_suffix_once :
    (∀ q v : String, jsToLowerCase v = ".fits" →
        resolveOutputPath (q ++ v) = q ++ ".fits") ∧
    (∀ p : String, fitsSuffix.isSuffixOf (lowerChars p.data) = false →
        resolveOutputPath p = p ++ ".fits") ∧
    resolveOutputPath "/x/img.FITS" = "/x/img.fits" ∧
    resolveOutputPath "/x/img" = "/x/img.fits" := by
  have hfits : ".fits".data = fitsSuffix := by decide
  refine ⟨?_, ?_, by decide, by decide⟩
  · intro q v hv
    have hvd : lowerChars v.data = fitsSuffix := by
      have h2 : (jsToLowerCase v).data = ".fits".data := by rw [hv]
      rw [hfits] at h2
      exact h2
    apply String.ext
    show resolveChars ((q ++ v).data) = (q ++ ".fits").data
    rw [String.data_append, String.data_append, resolveChars_strip _ _ hvd, hfits]
  · intro p h
    apply String.ext
    show resolveChars p.data = (p ++ ".fits").data
    rw [resolveChars_no_suffix _ h, String.data_append, hfits]

/-- Witness for C6: a mixed-case suffix `.FiTs` is stripped exactly once,
and a suffix-free path gets the canonical suffix appended. -/
theorem outputPath_strips_suffix_once_witness :
    resolveOutputPath ("/a/b" ++ ".FiTs") = "/a/b" ++ ".fits" ∧
    resolveOutputPath "/y/raw" = "/y/raw" ++ ".fits" := by
  constructor
  · exact outputPath_strips_suffix_once.1 "/a/b" ".FiTs" (by decide)
  · exact outputPath_strips_suffix_once.2.1 "/y/raw" (by decide)

/-! ### Helper lemmas about traces and the sentinel-writing block -/

theorem integrationCalls_append (a b : List Event) :
    integrationCalls (a ++ b) = integrationCalls a + integrationCalls b := by
  simp [integrationCalls, List.filter_append]

theorem calibrationCalls_append (a b : List Event) :
    calibrationCalls (a ++ b) = calibrationCalls a + calibrationCalls b := by
  simp [calibrationCalls, List.filter_append]

theorem saveCalls_append (a b : List Event) :
    saveCalls (a ++ b) = saveCalls a + saveCalls b := by
  simp [saveCalls, List.filter_append]

theorem fileWrites_append (a b : List Event) :
    fileWrites (a ++ b) = fileWrites a ++ fileWrites b := by
  simp [fileWrites, List.filterMap_append]

theorem signalFileBlock_counts (host : Host) (fileName : String) :
    saveCalls (signalFileBlock host fileName).1 = 0 ∧
    integrationCalls (signalFileBlock host fileName).1 = 0 ∧
    calibrationCalls (signalFileBlock host fileName).1 = 0 := by
  rw [signalFileBlock]
  by_cases hd : host.dirs.contains scriptDir <;>
    simp only [hd, if_true, if_false, Bool.false_eq_true, ite_true, ite_false] <;>
    cases host.mkdirThrows <;> cases host.signalWriteThrows <;>
      simp [saveCalls, integrationCalls, calibrationCalls, List.filter]

theorem signalFileBlock_success (host : Host) (fileName : String)
    (hd : host.dirs.contains scriptDir = true)
    (hs : host.signalWriteThrows = none) :
    signalFileBlock host fileName =
      ([Event.fileWrite (scriptDir ++ "/" ++ fileName) "done\n",
        Event.consoleWrite
          ("Signal file created successfully: " ++ (scriptDir ++ "/" ++ fileName))], none) := by
  rw [signalFileBlock]
  simp only [hd, hs]
  rfl

theorem signalFileBlock_write_fails (host : Host) (fileName : String) (m : String)
    (hd : host.dirs.contains scriptDir = true)
    (hs : host.signalWriteThrows = some m) :
    signalFileBlock host fileName = ([], some (.hostError m)) := by
  rw [signalFileBlock]
  simp only [hd, hs]
  rfl

/-! ### Concrete hosts used by witnesses and counterexamples -/

/-- Host for end-to-end scenario A: two input frames, an output path, a
healthy engine, a non-null active window, and a working filesystem. -/
def hostScenarioA : Host :=
  { files := [(inputFilePath, some (Json.arr [Json.str "a.fits", Json.str "b.fits"])),
              (paramFilePath, some (Json.obj [("output_path", Json.str "C:/out/stack")]))],
    dirs := [scriptDir],
    engineThrows := none,
    activeWindowIsNull := false,
    saveThrows := none,
    mkdirThrows := none,
    signalWriteThrows := none }

/-- Scenario-A host whose engine run leaves no active window. -/
def hostNullWindow : Host :=
  { hostScenarioA with activeWindowIsNull := true }

/-- C1: for every valid integration configuration (two input files and an
output path present, engine call returning), the integration driver
invokes the engine exactly once; with a non-null active window it issues
exactly one save call, and with a null active window it issues no save
call and raises the fatal no-active-result error. -/
theorem integration_engine_once_save_once
    (host : Host) (xs : List Json) (fields : List (String × Json)) (op : String)
    (hin : host.files.lookup inputFilePath = some (some (Json.arr xs)))
    (hpar : host.files.lookup paramFilePath = some (some (Json.obj fields)))
    (hlen : 2 ≤ xs.length)
    (hop : fields.lookup "output_path" = some (Json.str op))
    (heng : host.engineThrows = none) :
    integrationCalls (basicStackMain host).1 = 1 ∧
    (host.activeWindowIsNull = false → saveCalls (basicStackMain host).1 = 1) ∧
    (host.activeWindowIsNull = true →
      saveCalls (basicStackMain host).1 = 0 ∧
      (basicStackMain host).2 = Outcome.raised (JsError.scriptError
        "No active image window after ImageIntegration — integration likely failed.")) := by
  have hlt : ¬ xs.length < 2 := Nat.not_lt.mpr hlen
  cases hwin : host.activeWindowIsNull with
  | true =>
    simp only [basicStackMain, readJson, hin, hpar, jsTruthy, jsLengthProp, jsUndefLt,
      Bool.not_true, Bool.false_or, decide_eq_false hlt, jsProp, hop,
      jsMapIntegrationFrames, heng, hwin]
    simp [integrationCalls, saveCalls, List.filter]
  | false =>
    cases hsv : host.saveThrows with
    | some m =>
      simp only [basicStackMain, readJson, hin, hpar, jsTruthy, jsLengthProp, jsUndefLt,
        Bool.not_true, Bool.false_or, decide_eq_false hlt, jsProp, hop,
        jsMapIntegrationFrames, heng, hwin, hsv]
      simp [integrationCalls, saveCalls, List.filter]
    | none =>
      rcases hsb : signalFileBlock host "basic_stack_complete.tmp" with ⟨sevs, serr⟩
      have hcs := (signalFileBlock_counts host "basic_stack_complete.tmp").1
      have hci := (signalFileBlock_counts host "basic_stack_complete.tmp").2.1
      rw [hsb] at hcs hci
      cases serr with
      | some e =>
        simp only [basicStackMain, readJson, hin, hpar, jsTruthy, jsLengthProp, jsUndefLt,
          Bool.not_true, Bool.false_or, decide_eq_false hlt, jsProp, hop,
          jsMapIntegrationFrames, heng, hwin, hsv, hsb]
        simp [integrationCalls, saveCalls, List.filter] at hcs hci
        simp [integrationCalls_append, saveCalls_append,
          integrationCalls, saveCalls, List.filter]
        exact ⟨hci, hcs⟩
      | none =>
        simp only [basicStackMain, readJson, hin, hpar, jsTruthy, jsLengthProp, jsUndefLt,
          Bool.not_true, Bool.false_or, decide_eq_false hlt, jsProp, hop,
          jsMapIntegrationFrames, heng, hwin, hsv, hsb]
        simp [integrationCalls, saveCalls, List.filter] at hcs hci
        simp [integrationCalls_append, saveCalls_append,
          integrationCalls, saveCalls, List.filter]
        exact ⟨hci, hcs⟩

/-- Witness for C1 at scenario A (save issued once) and at the same
scenario with a null active window (no save, fatal error). -/
theorem integration_engine_once_save_once_witness :
    integrationCalls (basicStackMain hostScenarioA).1 = 1 ∧
    saveCalls (basicStackMain hostScenarioA).1 = 1 ∧
    integrationCalls (basicStackMain hostNullWindow).1 = 1 ∧
    saveCalls (basicStackMain hostNullWindow).1 = 0 ∧
    (basicStackMain hostNullWindow).2 = Outcome.raised (JsError.scriptError
      "No active image window after ImageIntegration — integration likely failed.") := by
  have hA := integration_engine_once_save_once hostScenarioA
    [Json.str "a.fits", Json.str "b.fits"] [("output_path", Json.str "C:/out/stack")]
    "C:/out/stack" rfl rfl (by decide) rfl rfl
  have hN := integration_engine_once_save_once hostNullWindow
    [Json.str "a.fits", Json.str "b.fits"] [("output_path", Json.str "C:/out/stack")]
    "C:/out/stack" rfl rfl (by decide) rfl rfl
  exact ⟨hA.1, hA.2.1 rfl, hN.1, (hN.2.2 rfl).1, (hN.2.2 rfl).2⟩

/-- C2 counterexample: the scenario-A integration run succeeds and writes
its completion sentinel, but the sentinel's content is the text `done`
followed by a newline (written by `outTextLn`), which is not exactly the
literal text `done`. -/
theorem integration_signal_content_not_bare_done :
    (basicStackMain hostScenarioA).2 = Outcome.completed ∧
    fileWrites (basicStackMain hostScenarioA).1 =
      [("C:/Temp/PixStack/basic_stack_complete.tmp", "done\n")] ∧
    ("done\n" : String) ≠ "done" := by
  refine ⟨rfl, rfl, by decide⟩

/-- C2 (amended): on every successful integration run (engine returned,
active window non-null, save issued, no signalling fault) the driver
writes exactly one sentinel file, named with the stage-specific name
`basic_stack_complete.tmp` inside the shared working directory, whose
content is the line `done` followed by a newline. -/
theorem integration_completion_signal
    (host : Host) (xs : List Json) (fields : List (String × Json)) (op : String)
    (hin : host.files.lookup inputFilePath = some (some (Json.arr xs)))
    (hpar : host.files.lookup paramFilePath = some (some (Json.obj fields)))
    (hlen : 2 ≤ xs.length)
    (hop : fields.lookup "output_path" = some (Json.str op))
    (heng : host.engineThrows = none)
    (hwin : host.activeWindowIsNull = false)
    (hsv : host.saveThrows = none)
    (hdir : host.dirs.contains scriptDir = true)
    (hsig : host.signalWriteThrows = none) :
    (basicStackMain host).2 = Outcome.completed ∧
    fileWrites (basicStackMain host).1 =
      [("C:/Temp/PixStack/basic_stack_complete.tmp", "done\n")] := by
  have hlt : ¬ xs.length < 2 := Nat.not_lt.mpr hlen
  simp only [basicStackMain, readJson, hin, hpar, jsTruthy, jsLengthProp, jsUndefLt,
    Bool.not_true, Bool.false_or, decide_eq_false hlt, jsProp, hop,
    jsMapIntegrationFrames, heng, hwin, hsv,
    signalFileBlock_success host "basic_stack_complete.tmp" hdir hsig]
  constructor
  · rfl
  · simp [fileWrites_append, fileWrites, List.filterMap]
    rfl

/-- Witness for the amended C2 at scenario A. -/
theorem integration_completion_signal_witness :
    (basicStackMain hostScenarioA).2 = Outcome.completed ∧
    fileWrites (basicStackMain hostScenarioA).1 =
      [("C:/Temp/PixStack/basic_stack_complete.tmp", "done\n")] :=
  integration_completion_signal hostScenarioA
    [Json.str "a.fits", Json.str "b.fits"] [("output_path", Json.str "C:/out/stack")]
    "C:/out/stack" rfl rfl (by decide) rfl rfl rfl rfl rfl rfl

/-- Integration host with a single input frame and readable parameters. -/
def hostOneInput : Host :=
  { hostScenarioA with
    files := [(inputFilePath, some (Json.arr [Json.str "a.fits"])),
              (paramFilePath, some (Json.obj [("output_path", Json.str "C:/out/stack")]))] }

/-- Calibration host with an empty input list and no params.json. -/
def hostZeroInput : Host :=
  { hostScenarioA with
    files := [(inputFilePath, some (Json.arr []))] }

/-- C3: with fewer than two integration inputs (both configuration files
readable) or fewer than one calibration input, the stage script reports
the insufficient-inputs condition on the console, exits with status 1,
and never invokes the engine. -/
theorem insufficient_inputs_abort
    (hostI hostC : Host) (xs ys : List Json) (pj : Json)
    (hinI : hostI.files.lookup inputFilePath = some (some (Json.arr xs)))
    (hparI : hostI.files.lookup paramFilePath = some (some pj))
    (hxs : xs.length < 2)
    (hinC : hostC.files.lookup inputFilePath = some (some (Json.arr ys)))
    (hys : ys.length < 1) :
    ((basicStackMain hostI).2 = Outcome.exited 1 ∧
     integrationCalls (basicStackMain hostI).1 = 0 ∧
     Event.consoleCritical "Error: Need at least two input files." ∈ (basicStackMain hostI).1) ∧
    ((calibrationMain hostC).2 = Outcome.exited 1 ∧
     calibrationCalls (calibrationMain hostC).1 = 0 ∧
     Event.consoleCritical "Error: Need at least one input file." ∈ (calibrationMain hostC).1) := by
  constructor
  · simp only [basicStackMain, readJson, hinI, hparI, jsTruthy, jsLengthProp, jsUndefLt,
      Bool.not_true, Bool.false_or, decide_eq_true hxs]
    simp [integrationCalls, List.filter]
  · simp only [calibrationMain, readJson, hinC, jsTruthy, jsLengthProp, jsUndefLt,
      Bool.not_true, Bool.false_or, decide_eq_true hys]
    simp [calibrationCalls, List.filter]

/-- Witness for C3: one integration input and zero calibration inputs both
abort with exit status 1 before the engine runs. -/
theorem insufficient_inputs_abort_witness :
    ((basicStackMain hostOneInput).2 = Outcome.exited 1 ∧
     integrationCalls (basicStackMain hostOneInput).1 = 0 ∧
     Event.consoleCritical "Error: Need at least two input files." ∈ (basicStackMain hostOneInput).1) ∧
    ((calibrationMain hostZeroInput).2 = Outcome.exited 1 ∧
     calibrationCalls (calibrationMain hostZeroInput).1 = 0 ∧
     Event.consoleCritical "Error: Need at least one input file." ∈ (calibrationMain hostZeroInput).1) :=
  insufficient_inputs_abort hostOneInput hostZeroInput
    [Json.str "a.fits"] [] (Json.obj [("output_path", Json.str "C:/out/stack")])
    rfl rfl (by decide) rfl (by decide)

/-- Calibration host whose params.json lacks the `master_dark` key. -/
def hostCalibNoDark : Host :=
  { hostScenarioA with
    files := [(inputFilePath, some (Json.arr [Json.str "L1.fits"])),
              (paramFilePath, some (Json.obj [("master_flat", Json.str "C:/cal/flat.fits"),
                                              ("output_dir", Json.str "C:/cal/out"),
                                              ("prefix", Json.str "_c")]))] }

/-- C4 counterexample: with params.json lacking `master_dark`, the
calibration run does not abort before the engine call — the engine is
invoked once and the run completes normally, so no `ConfigIncomplete`
abort happens. -/
theorem calibration_missing_dark_reaches_engine :
    calibrationCalls (calibrationMain hostCalibNoDark).1 = 1 ∧
    (calibrationMain hostCalibNoDark).2 = Outcome.completed :=
  ⟨rfl, rfl⟩

/-- C4 (amended): the calibration script performs no required-key
validation: when params.json lacks `master_dark`, the run proceeds to
invoke the engine exactly once, passing an undefined master-dark path,
and completes normally. -/
theorem calibration_missing_dark_passthrough
    (host : Host) (xs : List Json) (fields : List (String × Json))
    (hin : host.files.lookup inputFilePath = some (some (Json.arr xs)))
    (hpar : host.files.lookup paramFilePath = some (some (Json.obj fields)))
    (hlen : 1 ≤ xs.length)
    (hmd : fields.lookup "master_dark" = none)
    (heng : host.engineThrows = none) :
    calibrationCalls (calibrationMain host).1 = 1 ∧
    Event.engineCalibration (xs.map fun f => (true, f)) none
        (fields.lookup "master_flat") (fields.lookup "output_dir")
        (fields.lookup "prefix") ∈ (calibrationMain host).1 ∧
    (calibrationMain host).2 = Outcome.completed := by
  have hlt : ¬ xs.length < 1 := Nat.not_lt.mpr hlen
  simp only [calibrationMain, readJson, hin, hpar, jsTruthy, jsLengthProp, jsUndefLt,
    Bool.not_true, Bool.false_or, decide_eq_false hlt, jsProp, hmd,
    jsMapCalibrationFrames, heng]
  simp [calibrationCalls, List.filter]

/-- Witness for the amended C4 at a one-frame calibration host lacking
`master_dark`. -/
theorem calibration_missing_dark_passthrough_witness :
    calibrationCalls (calibrationMain hostCalibNoDark).1 = 1 ∧
    Event.engineCalibration [(true, Json.str "L1.fits")] none
        (some (Json.str "C:/cal/flat.fits")) (some (Json.str "C:/cal/out"))
        (some (Json.str "_c")) ∈ (calibrationMain hostCalibNoDark).1 ∧
    (calibrationMain hostCalibNoDark).2 = Outcome.completed :=
  calibration_missing_dark_passthrough hostCalibNoDark [Json.str "L1.fits"]
    [("master_flat", Json.str "C:/cal/flat.fits"),
     ("output_dir", Json.str "C:/cal/out"),
     ("prefix", Json.str "_c")]
    rfl rfl (by decide) rfl rfl

/-- Scenario-A host whose sentinel write fails with `disk full`. -/
def hostSignalFail : Host :=
  { hostScenarioA with signalWriteThrows := some "disk full" }

/-- Scenario-A host with no configuration files at all. -/
def hostNoFiles : Host :=
  { hostScenarioA with files := [] }

/-- Scenario-A host whose params.json exists but is not valid JSON. -/
def hostBadParams : Host :=
  { hostScenarioA with
    files := [(inputFilePath, some (Json.arr [Json.str "a.fits", Json.str "b.fits"])),
              (paramFilePath, none)] }

/-- Scenario-A host whose engine invocation raises. -/
def hostEngineFail : Host :=
  { hostScenarioA with engineThrows := some "engine crashed" }

/-- C7 counterexample: a sentinel-write failure during the integration
driver's completion signalling — outside bootstrap — is caught and
logged, and the run still ends normally, so it is not fatal. -/
theorem completion_signal_failure_swallowed :
    hostSignalFail.signalWriteThrows = some "disk full" ∧
    (basicStackMain hostSignalFail).2 = Outcome.completed ∧
    (basicStackMain hostSignalFail).1.getLast? =
      some (Event.consoleWrite "Error creating signal file: disk full") :=
  ⟨rfl, rfl, rfl⟩

/-- C7 (amended): a SignalWriteFailed error is caught and logged without
propagating wherever signal writing occurs — during bootstrap readiness
and equally during the integration driver's completion signalling (both
blocks sit in the same swallowing try/catch) — while every other error
kind remains fatal and ends the run: InsufficientInputs is reported with
a critical console message and the script exits directly with status 1
(not an unwind), and ConfigMissing, ConfigMalformed,
EngineInvocationFailed and NoActiveResult unwind uncaught out of the
stage script's top-level entry call carrying a human-readable message
(ConfigIncomplete never arises, since the code performs no parameter-key
validation). -/
theorem error_propagation_policy :
    (∀ (host : Host) (m : String),
        host.dirs.contains scriptDir = true →
        host.signalWriteThrows = some m →
        (launchPixHelper host).2 = Outcome.completed ∧
        Event.consoleWrite ("Error creating signal file: " ++ m) ∈ (launchPixHelper host).1) ∧
    (∀ (host : Host) (xs : List Json) (fields : List (String × Json)) (op m : String),
        host.files.lookup inputFilePath = some (some (Json.arr xs)) →
        host.files.lookup paramFilePath = some (some (Json.obj fields)) →
        2 ≤ xs.length →
        fields.lookup "output_path" = some (Json.str op) →
        host.engineThrows = none →
        host.activeWindowIsNull = false →
        host.saveThrows = none →
        host.dirs.contains scriptDir = true →
        host.signalWriteThrows = some m →
        (basicStackMain host).2 = Outcome.completed ∧
        Event.consoleWrite ("Error creating signal file: " ++ m) ∈ (basicStackMain host).1) ∧
    (∀ (host : Host) (xs : List Json) (pj : Json),
        host.files.lookup inputFilePath = some (some (Json.arr xs)) →
        host.files.lookup paramFilePath = some (some pj) →
        xs.length < 2 →
        (basicStackMain host).2 = Outcome.exited 1 ∧
        Event.consoleCritical "Error: Need at least two input files." ∈ (basicStackMain host).1) ∧
    (∀ (host : Host) (ys : List Json),
        host.files.lookup inputFilePath = some (some (Json.arr ys)) →
        ys.length < 1 →
        (calibrationMain host).2 = Outcome.exited 1 ∧
        Event.consoleCritical "Error: Need at least one input file." ∈ (calibrationMain host).1) ∧
    (∀ host : Host, host.files.lookup inputFilePath = none →
        (basicStackMain host).2 =
          Outcome.raised (JsError.scriptError ("Missing JSON file: " ++ inputFilePath)) ∧
        (calibrationMain host).2 =
          Outcome.raised (JsError.scriptError ("Missing JSON file: " ++ inputFilePath))) ∧
    (∀ (host : Host) (j : Json),
        host.files.lookup inputFilePath = some (some j) →
        host.files.lookup paramFilePath = some none →
        (basicStackMain host).2 = Outcome.raised JsError.parseSyntaxError) ∧
    (∀ (host : Host) (xs : List Json) (fields : List (String × Json)) (m : String),
        host.files.lookup inputFilePath = some (some (Json.arr xs)) →
        host.files.lookup paramFilePath = some (some (Json.obj fields)) →
        2 ≤ xs.length →
        host.engineThrows = some m →
        (basicStackMain host).2 = Outcome.raised (JsError.hostError m)) ∧
    (∀ (host : Host) (xs : List Json) (fields : List (String × Json)),
        host.files.lookup inputFilePath = some (some (Json.arr xs)) →
        host.files.lookup paramFilePath = some (some (Json.obj fields)) →
        2 ≤ xs.length →
        host.engineThrows = none →
        host.activeWindowIsNull = true →
        (basicStackMain host).2 = Outcome.raised (JsError.scriptError
          "No active image window after ImageIntegration — integration likely failed.")) := by
  refine ⟨?_, ?_, ?_, ?_, ?_, ?_, ?_, ?_⟩
  · intro host m hdir hsig
    simp only [launchPixHelper, signalFileBlock_write_fails host "launch_done.tmp" m hdir hsig,
      JsError.message]
    simp
  · intro host xs fields op m hin hpar hlen hop heng hwin hsv hdir hsig
    have hlt : ¬ xs.length < 2 := Nat.not_lt.mpr hlen
    simp only [basicStackMain, readJson, hin, hpar, jsTruthy, jsLengthProp, jsUndefLt,
      Bool.not_true, Bool.false_or, decide_eq_false hlt, jsProp, hop,
      jsMapIntegrationFrames, heng, hwin, hsv,
      signalFileBlock_write_fails host "basic_stack_complete.tmp" m hdir hsig,
      JsError.message]
    simp
  · intro host xs pj hin hpar hxs
    simp only [basicStackMain, readJson, hin, hpar, jsTruthy, jsLengthProp, jsUndefLt,
      Bool.not_true, Bool.false_or, decide_eq_true hxs]
    simp
  · intro host ys hin hys
    simp only [calibrationMain, readJson, hin, jsTruthy, jsLengthProp, jsUndefLt,
      Bool.not_true, Bool.false_or, decide_eq_true hys]
    simp
  · intro host h
    constructor
    · simp only [basicStackMain, readJson, h]
    · simp only [calibrationMain, readJson, h]
  · intro host j hin hpar
    simp only [basicStackMain, readJson, hin, hpar]
  · intro host xs fields m hin hpar hlen heng
    have hlt : ¬ xs.length < 2 := Nat.not_lt.mpr hlen
    simp only [basicStackMain, readJson, hin, hpar, jsTruthy, jsLengthProp, jsUndefLt,
      Bool.not_true, Bool.false_or, decide_eq_false hlt, jsProp,
      jsMapIntegrationFrames, heng]
    rcases hf : fields.lookup "output_path" with _ | f
    · rfl
    · rfl
  · intro host xs fields hin hpar hlen heng hwin
    have hlt : ¬ xs.length < 2 := Nat.not_lt.mpr hlen
    simp only [basicStackMain, readJson, hin, hpar, jsTruthy, jsLengthProp, jsUndefLt,
      Bool.not_true, Bool.false_or, decide_eq_false hlt, jsProp,
      jsMapIntegrationFrames, heng, hwin]
    rcases hf : fields.lookup "output_path" with _ | f
    · rfl
    · rfl

/-- Witness for the amended C7: each propagation-policy conjunct applied
at a concrete host, including the direct status-1 exits on insufficient
inputs for both stages. -/
theorem error_propagation_policy_witness :
    ((launchPixHelper hostSignalFail).2 = Outcome.completed ∧
     Event.consoleWrite ("Error creating signal file: " ++ "disk full") ∈
       (launchPixHelper hostSignalFail).1) ∧
    ((basicStackMain hostSignalFail).2 = Outcome.completed ∧
     Event.consoleWrite ("Error creating signal file: " ++ "disk full") ∈
       (basicStackMain hostSignalFail).1) ∧
    ((basicStackMain hostOneInput).2 = Outcome.exited 1 ∧
     Event.consoleCritical "Error: Need at least two input files." ∈
       (basicStackMain hostOneInput).1) ∧
    ((calibrationMain hostZeroInput).2 = Outcome.exited 1 ∧
     Event.consoleCritical "Error: Need at least one input file." ∈
       (calibrationMain hostZeroInput).1) ∧
    (basicStackMain hostNoFiles).2 =
      Outcome.raised (JsError.scriptError ("Missing JSON file: " ++ inputFilePath)) ∧
    (calibrationMain hostNoFiles).2 =
      Outcome.raised (JsError.scriptError ("Missing JSON file: " ++ inputFilePath)) ∧
    (basicStackMain hostBadParams).2 = Outcome.raised JsError.parseSyntaxError ∧
    (basicStackMain hostEngineFail).2 = Outcome.raised (JsError.hostError "engine crashed") ∧
    (basicStackMain hostNullWindow).2 = Outcome.raised (JsError.scriptError
      "No active image window after ImageIntegration — integration likely failed.") :=
  ⟨error_propagation_policy.1 hostSignalFail "disk full" rfl rfl,
   error_propagation_policy.2.1 hostSignalFail [Json.str "a.fits", Json.str "b.fits"]
     [("output_path", Json.str "C:/out/stack")] "C:/out/stack" "disk full"
     rfl rfl (by decide) rfl rfl rfl rfl rfl rfl,
   error_propagation_policy.2.2.1 hostOneInput [Json.str "a.fits"]
     (Json.obj [("output_path", Json.str "C:/out/stack")]) rfl rfl (by decide),
   error_propagation_policy.2.2.2.1 hostZeroInput [] rfl (by decide),
   (error_propagation_policy.2.2.2.2.1 hostNoFiles rfl).1,
   (error_propagation_policy.2.2.2.2.1 hostNoFiles rfl).2,
   error_propagation_policy.2.2.2.2.2.1 hostBadParams
     (Json.arr [Json.str "a.fits", Json.str "b.fits"]) rfl rfl,
   error_propagation_policy.2.2.2.2.2.2.1 hostEngineFail [Json.str "a.fits", Json.str "b.fits"]
     [("output_path", Json.str "C:/out/stack")] "engine crashed" rfl rfl (by decide) rfl,
   error_propagation_policy.2.2.2.2.2.2.2 hostNullWindow [Json.str "a.fits", Json.str "b.fits"]
     [("output_path", Json.str "C:/out/stack")] rfl rfl (by decide) rfl rfl⟩

/-- C8: loading a configuration file from a path that references no
existing file signals the missing-file error carrying the attempted path,
and produces no result at all. -/
theorem config_missing_carries_path (fs : FS) (path : String)
    (h : fs.lookup path = none) :
    readJson fs path =
      Except.error (JsError.scriptError ("Missing JSON file: " ++ path)) ∧
    ∀ j : Json, readJson fs path ≠ Except.ok j := by
  refine ⟨?_, ?_⟩ <;> simp [readJson, h]

/-- Witness for C8 at the empty filesystem and the spec's example path. -/
theorem config_missing_carries_path_witness :
    readJson ([] : FS) "/missing/input_files.json" =
      Except.error (JsError.scriptError
        ("Missing JSON file: " ++ "/missing/input_files.json")) ∧
    ∀ j : Json, readJson ([] : FS) "/missing/input_files.json" ≠ Except.ok j :=
  config_missing_carries_path ([] : FS) "/missing/input_files.json" rfl

/-- C9: the integration driver builds exactly one per-frame descriptor per
input file, preserving input order, each descriptor enabled with empty
drizzle and local-normalization fields; the engine is invoked once with
that list and, on a non-null active window, the save request targets the
resolved output path. -/
theorem integration_frame_descriptors
    (host : Host) (xs : List Json) (fields : List (String × Json)) (op : String)
    (hin : host.files.lookup inputFilePath = some (some (Json.arr xs)))
    (hpar : host.files.lookup paramFilePath = some (some (Json.obj fields)))
    (hlen : 2 ≤ xs.length)
    (hop : fields.lookup "output_path" = some (Json.str op))
    (heng : host.engineThrows = none) :
    Event.engineIntegration (xs.map fun f => (true, f, "", "")) ∈ (basicStackMain host).1 ∧
    integrationCalls (basicStackMain host).1 = 1 ∧
    (host.activeWindowIsNull = false →
      Event.saveRequest (resolveOutputPath op) false false false false ∈
        (basicStackMain host).1) := by
  have hlt : ¬ xs.length < 2 := Nat.not_lt.mpr hlen
  cases hwin : host.activeWindowIsNull with
  | true =>
    simp only [basicStackMain, readJson, hin, hpar, jsTruthy, jsLengthProp, jsUndefLt,
      Bool.not_true, Bool.false_or, decide_eq_false hlt, jsProp, hop,
      jsMapIntegrationFrames, heng, hwin]
    simp [integrationCalls, List.filter]
  | false =>
    cases hsv : host.saveThrows with
    | some m =>
      simp only [basicStackMain, readJson, hin, hpar, jsTruthy, jsLengthProp, jsUndefLt,
        Bool.not_true, Bool.false_or, decide_eq_false hlt, jsProp, hop,
        jsMapIntegrationFrames, heng, hwin, hsv]
      simp [integrationCalls, List.filter]
    | none =>
      rcases hsb : signalFileBlock host "basic_stack_complete.tmp" with ⟨sevs, serr⟩
      have hci := (signalFileBlock_counts host "basic_stack_complete.tmp").2.1
      rw [hsb] at hci
      simp [integrationCalls, List.filter] at hci
      cases serr with
      | some e =>
        simp only [basicStackMain, readJson, hin, hpar, jsTruthy, jsLengthProp, jsUndefLt,
          Bool.not_true, Bool.false_or, decide_eq_false hlt, jsProp, hop,
          jsMapIntegrationFrames, heng, hwin, hsv, hsb]
        simp [integrationCalls_append, integrationCalls, List.filter]
        exact hci
      | none =>
        simp only [basicStackMain, readJson, hin, hpar, jsTruthy, jsLengthProp, jsUndefLt,
          Bool.not_true, Bool.false_or, decide_eq_false hlt, jsProp, hop,
          jsMapIntegrationFrames, heng, hwin, hsv, hsb]
        simp [integrationCalls_append, integrationCalls, List.filter]
        exact hci

/-- Witness for C9 at scenario A: two descriptors in input order, one
engine call, and the saved artifact path `C:/out/stack.fits`. -/
theorem integration_frame_descriptors_witness :
    Event.engineIntegration [(true, Json.str "a.fits", "", ""), (true, Json.str "b.fits", "", "")] ∈
      (basicStackMain hostScenarioA).1 ∧
    integrationCalls (basicStackMain hostScenarioA).1 = 1 ∧
    resolveOutputPath "C:/out/stack" = "C:/out/stack.fits" ∧
    Event.saveRequest "C:/out/stack.fits" false false false false ∈
      (basicStackMain hostScenarioA).1 := by
  have h := integration_frame_descriptors hostScenarioA
    [Json.str "a.fits", Json.str "b.fits"] [("output_path", Json.str "C:/out/stack")]
    "C:/out/stack" rfl rfl (by decide) rfl rfl
  have h3 := h.2.2 rfl
  rw [show resolveOutputPath "C:/out/stack" = "C:/out/stack.fits" from rfl] at h3
  exact ⟨h.1, h.2.1, rfl, h3⟩

/-- Integration host with one input frame and a missing params.json. -/
def hostMissingParams : Host :=
  { hostScenarioA with
    files := [(inputFilePath, some (Json.arr [Json.str "a.fits"]))] }

/-- C10: the integration script reads both configuration files before its
input-count check, so a missing params.json fails the run with the
missing-file error and no engine call, even with fewer than two inputs;
the calibration script checks the input count before reading params.json,
so with zero inputs and a missing params.json it exits reporting
insufficient inputs. -/
theorem config_read_order
    (hostI hostC : Host) (j : Json)
    (hinI : hostI.files.lookup inputFilePath = some (some j))
    (hparI : hostI.files.lookup paramFilePath = none)
    (hinC : hostC.files.lookup inputFilePath = some (some (Json.arr [])))
    (hparC : hostC.files.lookup paramFilePath = none) :
    ((basicStackMain hostI).2 =
       Outcome.raised (JsError.scriptError ("Missing JSON file: " ++ paramFilePath)) ∧
     integrationCalls (basicStackMain hostI).1 = 0) ∧
    ((calibrationMain hostC).2 = Outcome.exited 1 ∧
     Event.consoleCritical "Error: Need at least one input file." ∈ (calibrationMain hostC).1 ∧
     calibrationCalls (calibrationMain hostC).1 = 0) := by
  constructor
  · simp only [basicStackMain, readJson, hinI, hparI]
    simp [integrationCalls, List.filter]
  · simp only [calibrationMain, readJson, hinC, jsTruthy, jsLengthProp, jsUndefLt]
    simp [calibrationCalls, List.filter]

/-- Witness for C10: one-input integration with missing params.json fails
on the missing file; zero-input calibration with missing params.json
exits on insufficient inputs. -/
theorem config_read_order_witness :
    ((basicStackMain hostMissingParams).2 =
       Outcome.raised (JsError.scriptError ("Missing JSON file: " ++ paramFilePath)) ∧
     integrationCalls (basicStackMain hostMissingParams).1 = 0) ∧
    ((calibrationMain hostZeroInput).2 = Outcome.exited 1 ∧
     Event.consoleCritical "Error: Need at least one input file." ∈ (calibrationMain hostZeroInput).1 ∧
     calibrationCalls (calibrationMain hostZeroInput).1 = 0) :=
  config_read_order hostMissingParams hostZeroInput
    (Json.arr [Json.str "a.fits"]) rfl rfl rfl rfl
